import Mathlib

/-!
Shallow embedding of the newsletter-generator per-article summarization
pipeline (src/content_extraction.py) and the category-normalization stage
(src/module3_categorization.py).

Strings are modelled as `List Char` (all inputs of interest are ASCII).
Python regular-expression constructs are embedded by specialized matching
functions that realise exactly the semantics of the concrete patterns that
appear in the source (word boundaries, case-insensitive literals, negative
lookahead guards, greedy backtracking for the one pattern with groups).
External effects (HTTP fetch + HTML extraction, the transformer model, the
ollama chat call, spaCy NER) are modelled as oracle parameters; everything
computed by the repository's own code is translated faithfully.
-/

set_option maxRecDepth 100000
set_option maxHeartbeats 4000000

/-- ASCII lowering, the effect of Python `str.lower()` on the ASCII inputs
used throughout this development. -/
def lowerChar (c : Char) : Char :=
  if 'A' ≤ c ∧ c ≤ 'Z' then Char.ofNat (c.toNat + 32) else c

/-- Python whitespace class `\s` (and the class used by `str.strip()` /
`str.split()`): space, tab, newline, carriage return, vertical tab, form
feed. -/
def isSpacePy (c : Char) : Bool :=
  c = ' ' || c = '\t' || c = '\n' || c = '\r' || c = '\x0b' || c = '\x0c'

/-- Python regex word class `\w` restricted to ASCII: letters, digits,
underscore. -/
def isWordPy (c : Char) : Bool :=
  ('a' ≤ c && c ≤ 'z') || ('A' ≤ c && c ≤ 'Z') || ('0' ≤ c && c ≤ '9') || c = '_'

/-- `str.lower()`. -/
def pylower (s : List Char) : List Char := s.map lowerChar

/-- `str.strip()`: drop leading and trailing whitespace. -/
def pystrip (s : List Char) : List Char :=
  ((s.dropWhile isSpacePy).reverse.dropWhile isSpacePy).reverse

/-- Worker for `str.split()` (split on whitespace runs, no empty pieces);
`cur` is the current word accumulated in reverse. -/
def pysplitAux : List Char → List Char → List (List Char)
  | [], cur => if cur.isEmpty then [] else [cur.reverse]
  | c :: cs, cur =>
      if isSpacePy c then
        if cur.isEmpty then pysplitAux cs [] else cur.reverse :: pysplitAux cs []
      else pysplitAux cs (c :: cur)

/-- `str.split()` with no argument. -/
def pysplit (s : List Char) : List (List Char) := pysplitAux s []

/-- Python's substring containment test `pat in s` (case sensitive). -/
def substrB (pat : List Char) : List Char → Bool
  | [] => pat.isEmpty
  | c :: cs => pat.isPrefixOf (c :: cs) || substrB pat cs

/-- Sentence-terminal punctuation class of the regex `[.!?]+` used by
`fallback_summarize`. -/
def isSentPunct (c : Char) : Bool := c = '.' || c = '!' || c = '?'

/-- Worker for `re.split(r'[.!?]+', text)`: pieces between maximal runs of
sentence punctuation, keeping empty edge pieces, exactly as `re.split`
does.  `cur` is the current piece in reverse, `inRun` whether the previous
character was part of a punctuation run. -/
def splitSentAux : List Char → List Char → Bool → List (List Char)
  | [], cur, _ => [cur.reverse]
  | c :: cs, cur, inRun =>
      if isSentPunct c then
        if inRun then splitSentAux cs cur true
        else cur.reverse :: splitSentAux cs [] true
      else splitSentAux cs (c :: cur) false

/-- `re.split(r'[.!?]+', text)`. -/
def splitSent (text : List Char) : List (List Char) := splitSentAux text [] false

/-- Substring test for `re.search(r'http[s]?://', summary)`: the pattern
matches iff "http://" or "https://" occurs in the string. -/
def hasURL (s : List Char) : Bool :=
  substrB ("http://".data) s || substrB ("https://".data) s

/-- `ArticleSummarizer.is_valid_summary` (src/content_extraction.py lines
355-374).  The source compares `overlap < 0.8` on an IEEE double where
`overlap = |summary_words ∩ original_words| / |summary_words|`; for word
counts in any realistic range that float comparison coincides exactly with
the rational comparison `5 * inter < 4 * |summary_words|` (the only rational
k/n whose correctly rounded quotient equals the double literal `0.8` is
4/5 itself, and division is correctly rounded), which is how it is stated
here. -/
def is_valid_summary (summary original : List Char) : Bool :=
  if summary.isEmpty || (pystrip summary).length < 20 then false
  else if hasURL summary then false
  else
    let sw := (pysplit (pylower summary)).dedup
    let ow := ((pysplit (pylower original)).take 100).dedup
    if sw.length = 0 then false
    else 5 * (sw.filter (fun w => ow.contains w)).length < 4 * sw.length

/-- The accumulation loop of `fallback_summarize`: for each of the first
sentences, stop as soon as appending the (unstripped) sentence would push
the (already accumulated) summary past `maxLen`; otherwise append the
stripped sentence plus ". ". -/
def fallbackLoop (maxLen : Nat) : List (List Char) → List Char → List Char
  | [], acc => acc
  | s :: rest, acc =>
      if maxLen < acc.length + s.length then acc
      else fallbackLoop maxLen rest (acc ++ pystrip s ++ ". ".data)

/-- `ArticleSummarizer.fallback_summarize` (src/content_extraction.py lines
376-389). -/
def fallback_summarize (text : List Char) (maxLen : Nat) : List Char :=
  let sentences := splitSent text
  if sentences.length < 2 then text.take maxLen ++ "...".data
  else pystrip (fallbackLoop maxLen (sentences.take 3) [])

/-- The entity knowledge base `_load_entity_knowledge` in the source's
(insertion-preserving) dict order: law firms, consulting firms, investment
banks. -/
def entity_corrections : List (List Char × List Char) :=
  [("Slaughter and May".data, "law firm".data),
   ("Clifford Chance".data, "law firm".data),
   ("Linklaters".data, "law firm".data),
   ("Freshfields".data, "law firm".data),
   ("Allen & Overy".data, "law firm".data),
   ("Skadden Arps".data, "law firm".data),
   ("Davis Polk".data, "law firm".data),
   ("Sullivan & Cromwell".data, "law firm".data),
   ("Cravath".data, "law firm".data),
   ("Wachtell Lipton".data, "law firm".data),
   ("Kirkland & Ellis".data, "law firm".data),
   ("Latham & Watkins".data, "law firm".data),
   ("McKinsey & Company".data, "consulting firm".data),
   ("Boston Consulting Group".data, "consulting firm".data),
   ("Bain & Company".data, "consulting firm".data),
   ("BCG".data, "consulting firm".data),
   ("Deloitte".data, "consulting firm".data),
   ("PwC".data, "consulting firm".data),
   ("EY".data, "consulting firm".data),
   ("KPMG".data, "consulting firm".data),
   ("Accenture".data, "consulting firm".data),
   ("Goldman Sachs".data, "investment bank".data),
   ("Morgan Stanley".data, "investment bank".data),
   ("JPMorgan Chase".data, "investment bank".data),
   ("Bank of America".data, "investment bank".data),
   ("Citigroup".data, "investment bank".data),
   ("Barclays".data, "investment bank".data),
   ("Deutsche Bank".data, "investment bank".data),
   ("Credit Suisse".data, "investment bank".data),
   ("UBS".data, "investment bank".data)]

/-- Case-insensitive literal test: the next `lit.length` characters of `s`
equal `lit` up to ASCII case. -/
def ciStarts (lit s : List Char) : Bool :=
  decide (pylower (List.take lit.length s) = pylower lit)

/-- `\b` before a literal that begins with a word character: satisfied at
the start of the string or after a non-word character.  (Every entity name
and rule literal in the source begins with a word character.) -/
def boundaryBefore : Option Char → Bool
  | none => true
  | some c => !isWordPy c

/-- `\b` after a literal that ends with a word character: satisfied at the
end of the string or before a non-word character.  (Every entity name and
rule literal in the source ends with a word character.) -/
def boundaryAfterL : List Char → Bool
  | [] => true
  | c :: _ => !isWordPy c

/-- A match of `\b<lit>\b` (with `re.IGNORECASE`) at the current position;
`prev` is the character preceding the position (`none` at the start of the
string). -/
def matchesHere (lit : List Char) (prev : Option Char) (s : List Char) : Bool :=
  boundaryBefore prev && ciStarts lit s && boundaryAfterL (s.drop lit.length)

/-- `re.search(\b<lit>\b, s, re.IGNORECASE) is not None`. -/
def hasOccCI (lit : List Char) (prev : Option Char) : List Char → Bool
  | [] => false
  | c :: cs => matchesHere lit prev (c :: cs) || hasOccCI lit (some c) cs

/-- Number of positions at which `\b<lit>\b` matches case-insensitively. -/
def countOccCI (lit : List Char) (prev : Option Char) : List Char → Nat
  | [] => 0
  | c :: cs => (if matchesHere lit prev (c :: cs) then 1 else 0) + countOccCI lit (some c) cs

/-- `re.sub(\b<lit>\b, repl, s, flags=re.IGNORECASE, count=1)`: replace the
first (leftmost) match only; the text after the match is untouched. -/
def subFirstCI (lit repl : List Char) (prev : Option Char) : List Char → List Char
  | [] => []
  | c :: cs =>
      if matchesHere lit prev (c :: cs) then repl ++ (c :: cs).drop lit.length
      else c :: subFirstCI lit repl (some c) cs

/-- One iteration of the loop body of `preprocess_text_with_context`: the
source tests `re.search` against the ORIGINAL `text` but substitutes (with
`count=1`) into the running `processed` string. -/
def injectStep (text processed : List Char) (p : List Char × List Char) : List Char :=
  if hasOccCI p.1 none text then
    subFirstCI p.1 (p.1 ++ " (the ".data ++ p.2 ++ ")".data) none processed
  else processed

/-- `ArticleSummarizer.preprocess_text_with_context`
(src/content_extraction.py lines 112-132), with `_create_entity_patterns`
inlined (it builds `\b<escaped entity>\b` for each knowledge-base entry in
order). -/
def preprocess_text_with_context (text : List Char) : List Char :=
  if text.isEmpty then text
  else entity_corrections.foldl (injectStep text) text

/-- Negative lookahead `(?!\s+(?:g1|g2|...))` used by the correction rules:
blocked iff one or more whitespace characters follow, and after the maximal
whitespace run one of the guard literals matches case-insensitively (the
guard alternatives all begin with a non-space character, so only the
maximal run can precede a match). -/
def guardBlocked (guards : List (List Char)) (rest : List Char) : Bool :=
  let ws := rest.takeWhile isSpacePy
  !ws.isEmpty && guards.any (fun g => ciStarts g (rest.drop ws.length))

/-- A match of `\b<lit>\b(?!\s+(?:guards))` at the current position. -/
def ruleMatchHere (lit : List Char) (guards : List (List Char)) (prev : Option Char)
    (s : List Char) : Bool :=
  matchesHere lit prev s && !guardBlocked guards (s.drop lit.length)

/-- `re.sub(\b<lit>\b(?!\s+(?:guards)), repl, s, flags=re.IGNORECASE)`:
replace ALL non-overlapping matches, scanning left to right; after a
replacement, scanning resumes after the matched span of the ORIGINAL
string (`prev` becomes the last character of the matched span).  `fuel`
only bounds the recursion; each step consumes at least one character of
`s`, so `s.length + 1` fuel always suffices. -/
def subAllGuard : Nat → List Char → List (List Char) → List Char → Option Char →
    List Char → List Char
  | 0, _, _, _, _, s => s
  | _ + 1, _, _, _, _, [] => []
  | fuel + 1, lit, guards, repl, prev, c :: cs =>
      if ruleMatchHere lit guards prev (c :: cs) then
        repl ++ subAllGuard fuel lit guards repl
          (some (((c :: cs).take lit.length).getLastD c)) ((c :: cs).drop lit.length)
      else c :: subAllGuard fuel lit guards repl (some c) cs

/-- Apply one guarded correction rule to a whole summary. -/
def applyGuardRule (lit : List Char) (guards : List (List Char)) (repl : List Char)
    (s : List Char) : List Char :=
  subAllGuard (s.length + 1) lit guards repl none s

/-- `[\w\s]` character class. -/
def isWS (c : Char) : Bool := isWordPy c || isSpacePy c

/-- General `\b` test between the previous character (`none` = string edge,
counted as non-word) and the current character. -/
def boundaryAt (prev : Option Char) (cur : Char) : Bool :=
  (match prev with
   | none => false
   | some p => isWordPy p) != isWordPy cur

/-- The ordered alternatives ` (?:survive|make it out|escape)` of the
person-misreading rule, with the preceding literal space included. -/
def personAlts : List (List Char) :=
  [" survive".data, " make it out".data, " escape".data]

/-- Try to match `\b([\w\s]+) and ([\w\s]+) (?:survive|make it out|escape)`
(with `re.IGNORECASE`) at the current position, replicating the regex
engine's backtracking order: group 1 greedy (longest first), then the
literal " and ", then group 2 greedy, then the alternatives in pattern
order.  Returns `(l1, l2, altLen)` where `l1`/`l2` are the group lengths
and `altLen` the length of the matched alternative including its leading
space. -/
def personAt (prev : Option Char) (s : List Char) : Option (Nat × Nat × Nat) :=
  match s with
  | [] => none
  | c :: _ =>
    if boundaryAt prev c then
      let run1 := (s.takeWhile isWS).length
      ((List.range run1).map (fun k => run1 - k)).findSome? (fun l1 =>
        let rest1 := s.drop l1
        if ciStarts (" and ".data) rest1 then
          let rest2 := rest1.drop 5
          let run2 := (rest2.takeWhile isWS).length
          ((List.range run2).map (fun k => run2 - k)).findSome? (fun l2 =>
            let rest3 := rest2.drop l2
            personAlts.findSome? (fun a =>
              if ciStarts a rest3 then some (l1, l2, a.length) else none))
        else none)
    else none

/-- Leftmost match of the person-misreading pattern: scan positions left to
right, attempting a full match at each.  Returns the starting index along
with the data from `personAt`. -/
def findPerson (prev : Option Char) : List Char → Option (Nat × Nat × Nat × Nat)
  | [] => none
  | c :: cs =>
      match personAt prev (c :: cs) with
      | some (l1, l2, la) => some (0, l1, l2, la)
      | none =>
          match findPerson (some c) cs with
          | some (i, l1, l2, la) => some (i + 1, l1, l2, la)
          | none => none

/-- `re.sub` for the person-misreading rule with its callable replacement:
if any knowledge-base entity name is a (case-sensitive) substring of
`"{group1} and {group2}"`, the match is rewritten to
`"{group1} and {group2} (the law firm) survive"`, otherwise the match is
kept verbatim (`m.group(0)`); scanning resumes after the matched span.
`fuel` only bounds the recursion (each step consumes at least one
character). -/
def subPerson : Nat → Option Char → List Char → List Char
  | 0, _, s => s
  | fuel + 1, prev, s =>
      match findPerson prev s with
      | none => s
      | some (i, l1, l2, la) =>
          let pre := s.take i
          let m := s.drop i
          let matchLen := l1 + 5 + l2 + la
          let g1 := m.take l1
          let g2 := (m.drop (l1 + 5)).take l2
          let joined := g1 ++ " and ".data ++ g2
          let repl :=
            if entity_corrections.any (fun p => substrB p.1 joined) then
              joined ++ " (the law firm) survive".data
            else m.take matchLen
          pre ++ repl ++ subPerson fuel (some ((m.take matchLen).getLastD 'x')) (m.drop matchLen)

/-- Try to match
`\b(Slaughter and May)\s+(?:are|is)\s+(?:a couple|married|together)` (with
`re.IGNORECASE`) at the current position.  Returns the total match length
(group 1 is always the 17 leading characters of the match).  The verb and
relation alternatives start with pairwise distinct letters, so at most one
alternative can match and the pattern order is immaterial; the whitespace
runs must be maximal since no alternative starts with whitespace. -/
def relAt (prev : Option Char) (s : List Char) : Option Nat :=
  match s with
  | [] => none
  | c :: _ =>
    if boundaryAt prev c && ciStarts ("Slaughter and May".data) s then
      let rest1 := s.drop 17
      let w1 := (rest1.takeWhile isSpacePy).length
      if w1 = 0 then none else
      let rest2 := rest1.drop w1
      (["are".data, "is".data].findSome? (fun v =>
        if ciStarts v rest2 then
          let rest3 := rest2.drop v.length
          let w2 := (rest3.takeWhile isSpacePy).length
          if w2 = 0 then none else
          let rest4 := rest3.drop w2
          (["a couple".data, "married".data, "together".data].findSome? (fun r =>
            if ciStarts r rest4 then some (17 + w1 + v.length + w2 + r.length) else none))
        else none))
    else none

/-- `re.sub` for the relationship-misreading rule with replacement
`r'\1 is a law firm'` (group 1 keeps the matched casing).  `fuel` only
bounds the recursion (each step consumes at least one character). -/
def subRel : Nat → Option Char → List Char → List Char
  | 0, _, s => s
  | _ + 1, _, [] => []
  | fuel + 1, prev, c :: cs =>
      match relAt prev (c :: cs) with
      | some len =>
          (c :: cs).take 17 ++ " is a law firm".data ++
            subRel fuel (some (((c :: cs).take len).getLastD c)) ((c :: cs).drop len)
      | none => c :: subRel fuel (some c) cs

/-- Guard alternatives of the law-firm rules: `(?!\s+(?:law firm|firm|LLP))`. -/
def lawGuards : List (List Char) := ["law firm".data, "firm".data, "LLP".data]

/-- Guard alternatives of the consulting-firm rules:
`(?!\s+(?:consulting|firm))`. -/
def consGuards : List (List Char) := ["consulting".data, "firm".data]

/-- Guard alternatives of the investment-bank rules:
`(?!\s+(?:bank|investment))`. -/
def bankGuards : List (List Char) := ["bank".data, "investment".data]

/-- `ArticleSummarizer.post_process_summary` (src/content_extraction.py
lines 134-172): the ten correction rules applied in dict order, each as a
full `re.sub` pass (no count limit) over the output of the previous rule. -/
def post_process_summary (summary : List Char) : List Char :=
  if summary.isEmpty then summary
  else
    let s1 := applyGuardRule ("Slaughter and May".data) lawGuards
      ("Slaughter and May law firm".data) summary
    let s2 := applyGuardRule ("Clifford Chance".data) lawGuards
      ("Clifford Chance law firm".data) s1
    let s3 := applyGuardRule ("Linklaters".data) lawGuards
      ("Linklaters law firm".data) s2
    let s4 := applyGuardRule ("McKinsey & Company".data) consGuards
      ("McKinsey & Company consulting firm".data) s3
    let s5 := applyGuardRule ("Boston Consulting Group".data) consGuards
      ("Boston Consulting Group".data) s4
    let s6 := applyGuardRule ("Bain & Company".data) consGuards
      ("Bain & Company consulting firm".data) s5
    let s7 := applyGuardRule ("Goldman Sachs".data) bankGuards
      ("Goldman Sachs investment bank".data) s6
    let s8 := applyGuardRule ("Morgan Stanley".data) bankGuards
      ("Morgan Stanley investment bank".data) s7
    let s9 := subPerson (s8.length + 1) none s8
    subRel (s9.length + 1) none s9

/-- `ArticleSummarizer.fetch_full_article_text` (src/content_extraction.py
lines 258-279) with the network transport and HTML extraction modelled as
an oracle: `net = none` models a request failure / non-200 status, and
`net = some content` models a successful fetch whose extracted, cleaned
main content is `content`.  The length gate against `min_length` is the
source's own code. -/
def fetch_full_article_text (net : Option (List Char)) (minLength : Nat) :
    Option (List Char) :=
  match net with
  | none => none
  | some content => if content.length < minLength then none else some content

/-- The three provenance tiers of the content-selection fallback chain. -/
inductive Tier
  | full_article
  | original_summary
  | title_only
deriving DecidableEq

/-- The tag strings the spec associates with the three tiers. -/
def tierTag : Tier → List Char
  | .full_article => "full_article".data
  | .original_summary => "original_summary".data
  | .title_only => "title_only".data

/-- Python truthiness of an optional string (`if full_text`): non-None and
non-empty. -/
def pyTruthyOpt : Option (List Char) → Bool
  | none => false
  | some t => !t.isEmpty

/-- Condition of line 409: `if full_text and len(full_text) > 200`. -/
def fullLongB (full : Option (List Char)) : Bool :=
  match full with
  | some t => !t.isEmpty && decide (200 < t.length)
  | none => false

/-- Condition of line 411: `elif existing_summary and len(existing_summary) > 50`. -/
def existingLongB (ex : List Char) : Bool := !ex.isEmpty && decide (50 < ex.length)

/-- The content-selection chain of `process_articles` (src/content_extraction.py
lines 409-414), returning the text to summarize together with the tier that
produced it. -/
def select (title ex : List Char) (full : Option (List Char)) : List Char × Tier :=
  if fullLongB full then (title ++ ". ".data ++ full.getD [], .full_article)
  else if existingLongB ex then (title ++ ". ".data ++ ex, .original_summary)
  else (title, .title_only)

/-- The `content_source` value written into the output record (line 438):
`"full_article" if full_text else "original_summary"`. -/
def content_source_field (full : Option (List Char)) : List Char :=
  if pyTruthyOpt full then ("full_article".data) else ("original_summary".data)

/-- The input-truncation step of `summarize_with_pipeline`:
`' '.join(text.split()[:1024])` when the text has more than 1024 words. -/
def truncateWords (maxWords : Nat) (t : List Char) : List Char :=
  if maxWords < (pysplit t).length then
    List.intercalate (" ".data) ((pysplit t).take maxWords)
  else t

/-- `ArticleSummarizer.summarize_with_pipeline` (src/content_extraction.py
lines 281-308).  The transformer pipeline is the oracle `gen`, applied to
the context-injected, truncated text; `gen _ = none` models the except
branch (model unreachable / raising), in which case the source returns the
extractive fallback of the untouched input text.  On success the model
output is post-processed. -/
def summarize_with_pipeline (gen : List Char → Option (List Char)) (text : List Char) :
    List Char :=
  match gen (truncateWords 1024 (preprocess_text_with_context text)) with
  | some out => post_process_summary out
  | none => fallback_summarize text 200

/-- An input article as consumed by `process_articles` (fields read at
lines 402-404 and 430-440). -/
structure ArticleIn where
  title : List Char
  summary : List Char
  link : List Char
  published : List Char
  source : List Char
deriving DecidableEq

/-- The structured output record built at lines 430-440.  These are exactly
the fields of the dict literal; there is no `used_fallback` field. -/
structure SummarizedRecord where
  title : List Char
  link : List Char
  published : List Char
  source : List Char
  original_summary : List Char
  ai_summary : List Char
  company_type : List Char
  content_source : List Char
  detected_entities : List (List Char)
deriving DecidableEq

/-- The keys of the dict literal of lines 430-440, in source order. -/
def structuredKeys : List (List Char) :=
  ["title".data, "link".data, "published".data, "source".data,
   "original_summary".data, "ai_summary".data, "company_type".data,
   "content_source".data, "detected_entities".data]

/-- One loop iteration of `process_articles` (src/content_extraction.py
lines 399-445) for a single article, in the `use_pipeline=True`
configuration the script runs with.  `net` is the fetch oracle (see
`fetch_full_article_text`), `gen` the generative-model oracle, `ents` the
spaCy NER oracle.  Returns the output record together with the Boolean
that the source adds to `failed_summaries` (true iff the generative
attempt failed validation and the extractive fallback result was used
unconditionally, without re-validation). -/
def processArticle (net : Option (List Char)) (gen : List Char → Option (List Char))
    (ents : List Char → List (List Char)) (a : ArticleIn) (companyType : List Char) :
    SummarizedRecord × Bool :=
  let full_text := fetch_full_article_text net 500
  let text := (select a.title a.summary full_text).1
  let summary0 := summarize_with_pipeline gen text
  let invalid := !is_valid_summary summary0 text
  let summary := if invalid then fallback_summarize text 200 else summary0
  ({ title := a.title
     link := a.link
     published := a.published
     source := a.source
     original_summary := a.summary
     ai_summary := summary
     company_type := pylower companyType
     content_source := content_source_field full_text
     detected_entities := ents text }, invalid)

/-- `ALLOWED_CATEGORIES` (src/module3_categorization.py lines 25-32). -/
def ALLOWED_CATEGORIES : List (List Char) :=
  ["Strategy and Management".data,
   "Financials".data,
   "Investments, M&A and Partnerships".data,
   "Logistics and Operations".data,
   "Commercials".data,
   "ESG and Sustainability".data]

/-- `normalize_category` (src/module3_categorization.py lines 34-44):
strip+lower, then first exact case-insensitive match, then first
substring-containment match (Python `in`, either direction), else the
sentinel "Uncategorised". -/
def normalize_category (output : List Char) : List Char :=
  let o := pylower (pystrip output)
  match ALLOWED_CATEGORIES.find? (fun cat => decide (o = pylower cat)) with
  | some cat => cat
  | none =>
      match ALLOWED_CATEGORIES.find?
          (fun cat => substrB (pylower cat) o || substrB o (pylower cat)) with
      | some cat => cat
      | none => "Uncategorised".data

/-- The category assigned to one article by `process_articles`
(src/module3_categorization.py lines 59-69).  `llm = some raw` models the
chat call returning `raw` (the source strips it before normalizing);
`llm = none` models any exception raised inside the try block, in which
case the source assigns the literal "Uncategorized". -/
def assignedCategory (llm : Option (List Char)) : List Char :=
  match llm with
  | some raw => normalize_category (pystrip raw)
  | none => "Uncategorized".data

/-- The last character of `pre` as an `Option`, falling back to `prev` when
`pre` is empty: the character preceding the position right after `pre`. -/
def lastOpt (prev : Option Char) : List Char → Option Char
  | [] => prev
  | c :: p => lastOpt (some c) p

/-- `scanNoMatch lit prev pre rest = true` states that scanning
`pre ++ rest` never finds a `\b<lit>\b` match starting inside `pre`
(matches are allowed to straddle into `rest`; all start positions within
`pre` are checked against the full remaining string). -/
def scanNoMatch (lit : List Char) (prev : Option Char) : List Char → List Char → Bool
  | [], _ => true
  | c :: p, rest =>
      !matchesHere lit prev (c :: (p ++ rest)) && scanNoMatch lit (some c) p rest

/-- Number of positions of `s` at which `pat` occurs as a (case-sensitive)
prefix of the remaining string. -/
def countSub (pat : List Char) : List Char → Nat
  | [] => 0
  | c :: cs => (if pat.isPrefixOf (c :: cs) then 1 else 0) + countSub pat cs

/-- The generative-summarizer oracle for an unreachable model: every call
raises, i.e. returns `none`. -/
def genUnreachable : List Char → Option (List Char) := fun _ => none

/-- A trivial spaCy oracle (the `detected_entities` field is diagnostic
only). -/
def noEnts : List Char → List (List Char) := fun _ => []

/-- The article of spec test 6: full_text unavailable, summary longer than
50 characters. -/
def acmeArticle : ArticleIn :=
  { title := "Acme Corp wins major contract".data
    summary := "Acme Corp secures a $10M logistics deal with Acme Corp winning big.".data
    link := []
    published := []
    source := [] }

/-- An article whose every field is empty. -/
def emptyArticle : ArticleIn :=
  { title := [], summary := [], link := [], published := [], source := [] }

/-- An article whose title is one 250-character sentence followed by a
period (its extractive fallback summary is the empty string: the first
sentence alone already exceeds the 200-character budget, so the
accumulation loop stops with nothing accumulated). -/
def longTitleArticle : ArticleIn :=
  { title := List.replicate 250 'A' ++ ".".data
    summary := [], link := [], published := [], source := [] }

/-- 100 pairwise distinct words w0 .. w99. -/
def sourceWords : List (List Char) :=
  (List.range 100).map (fun i => 'w' :: Nat.toDigits 10 i)

/-- A 100-word source text. -/
def sourceText100 : List Char := List.intercalate (" ".data) sourceWords

/-- The summary consisting of exactly the first 90 words of
`sourceText100`. -/
def summaryFirst90 : List Char := List.intercalate (" ".data) (sourceWords.take 90)

/-- A 90-word summary sharing exactly 5 of its words (w0 .. w4) with the
first 100 words of `sourceText100`. -/
def summaryShare5 : List Char :=
  List.intercalate (" ".data)
    (sourceWords.take 5 ++ (List.range 85).map (fun i => 'u' :: Nat.toDigits 10 i))

theorem subFirstCI_skip (lit repl : List Char) :
    ∀ (pre : List Char) (prev : Option Char) (rest : List Char),
      scanNoMatch lit prev pre rest = true →
      subFirstCI lit repl prev (pre ++ rest) =
        pre ++ subFirstCI lit repl (lastOpt prev pre) rest := by
  intro pre
  induction pre with
  | nil => intro prev rest _; rfl
  | cons c p ih =>
      intro prev rest h
      simp only [scanNoMatch, Bool.and_eq_true, Bool.not_eq_true'] at h
      simp only [List.cons_append, subFirstCI, List.append_eq, h.1, Bool.false_eq_true,
        if_false]
      rw [ih (some c) rest h.2]
      rfl

theorem subFirstCI_fire (lit repl occ post : List Char) (prev : Option Char)
    (hne : occ ≠ []) (hlen : occ.length = lit.length)
    (hmatch : matchesHere lit prev (occ ++ post) = true) :
    subFirstCI lit repl prev (occ ++ post) = repl ++ post := by
  cases occ with
  | nil => exact absurd rfl hne
  | cons c o =>
      simp only [List.cons_append] at hmatch
      simp only [List.cons_append, subFirstCI, List.append_eq, hmatch, if_true]
      rw [← List.cons_append, ← hlen, List.drop_left]

theorem hasOccCI_of_match (lit : List Char) :
    ∀ (pre : List Char) (prev : Option Char) (c : Char) (rest : List Char),
      matchesHere lit (lastOpt prev pre) (c :: rest) = true →
      hasOccCI lit prev (pre ++ c :: rest) = true := by
  intro pre
  induction pre with
  | nil =>
      intro prev c rest h
      simp only [List.nil_append, hasOccCI]
      simp only [lastOpt] at h
      rw [h]
      rfl
  | cons d p ih =>
      intro prev c rest h
      simp only [List.cons_append, hasOccCI, List.append_eq]
      rw [ih (some d) c rest h]
      simp

theorem foldl_injectStep_id (text : List Char) :
    ∀ (kb : List (List Char × List Char)) (acc : List Char),
      (∀ p ∈ kb, hasOccCI p.1 none text = false) →
      kb.foldl (injectStep text) acc = acc := by
  intro kb
  induction kb with
  | nil => intro acc _; rfl
  | cons q kb ih =>
      intro acc h
      have hq : hasOccCI q.1 none text = false := h q (List.mem_cons_self q kb)
      rw [List.foldl_cons]
      have hstep : injectStep text acc q = acc := by
        simp only [injectStep, hq, Bool.false_eq_true, if_false]
      rw [hstep]
      exact ih acc (fun p hp => h p (List.mem_cons_of_mem q hp))

theorem pystrip_eq_nil_of_all_space (s : List Char) (h : ∀ c ∈ s, isSpacePy c = true) :
    pystrip s = [] := by
  unfold pystrip
  have h1 : s.dropWhile isSpacePy = [] := by
    rw [List.dropWhile_eq_nil_iff]
    exact h
  rw [h1]
  rfl

/-- C1 (counterexample): the extractive fallback summary is NOT always
accepted by the validator.  For the one-character text "a" the fallback is
"a...", which the validator rejects for being shorter than 20 characters,
so the property "is_valid_summary(fallback_summarize(text), text) is true
for every string of length >= 1" is false at text = "a". -/
theorem c1_fallback_validity_cex :
    is_valid_summary (fallback_summarize ("a".data) 200) ("a".data) = false := by decide

/-- C1 (amended): the pipeline does take a fallback result after a failed
or invalid generative attempt without re-validation — whenever the
generative candidate fails validation, the output record's ai_summary is
exactly the extractive fallback of the selected text, used
unconditionally — but the fallback is not itself always accepted by the
validator. -/
theorem c1_fallback_accepted_unconditionally
    (net : Option (List Char)) (gen : List Char → Option (List Char))
    (ents : List Char → List (List Char)) (a : ArticleIn) (ct : List Char)
    (h : is_valid_summary
          (summarize_with_pipeline gen
            (select a.title a.summary (fetch_full_article_text net 500)).1)
          (select a.title a.summary (fetch_full_article_text net 500)).1 = false) :
    (processArticle net gen ents a ct).1.ai_summary =
      fallback_summarize (select a.title a.summary (fetch_full_article_text net 500)).1 200 := by
  simp only [processArticle, h, Bool.not_false, if_true]

/-- C1 (witness): the amended theorem applied to the all-empty article with
an unreachable generative model. -/
theorem c1_fallback_accepted_unconditionally_witness :
    (processArticle none genUnreachable noEnts emptyArticle ("client".data)).1.ai_summary =
      fallback_summarize (select emptyArticle.title emptyArticle.summary
        (fetch_full_article_text none 500)).1 200 :=
  c1_fallback_accepted_unconditionally none genUnreachable noEnts emptyArticle
    ("client".data) (by decide)

/-- C2 (counterexample): ai_summary CAN be empty.  For an article whose
title is a single 250-character sentence (and nothing else available), the
selected text's first sentence alone exceeds the 200-character fallback
budget, so the extractive fallback is the empty string; the generative
model being unreachable, the produced record's ai_summary is "" —
contradicting "the ai_summary field is non-empty". -/
theorem c2_empty_ai_summary_cex :
    (processArticle none genUnreachable noEnts longTitleArticle ("client".data)).1.ai_summary
      = [] := by decide

/-- C2 (amended): the non-empty / no-URL part of the invariant holds
exactly on the validated generative path: any summary accepted by
is_valid_summary is non-empty (its stripped length is at least 20) and
contains no URL.  On the fallback path none of the claimed properties is
enforced (the fallback can even be empty, per the counterexample), and
validation bounds copying only by the 80% word-overlap rule, not by a
case-insensitive inequality with the raw input. -/
theorem c2_valid_summary_nonempty_no_url (s t : List Char)
    (h : is_valid_summary s t = true) :
    s ≠ [] ∧ hasURL s = false ∧ 20 ≤ (pystrip s).length := by
  unfold is_valid_summary at h
  split at h
  · exact absurd h (by simp)
  · split at h
    · exact absurd h (by simp)
    · rename_i hc1 hc2
      simp only [Bool.or_eq_true, decide_eq_true_eq, not_or] at hc1
      refine ⟨?_, ?_, ?_⟩
      · intro hnil
        exact hc1.1 (by rw [hnil]; rfl)
      · exact Bool.eq_false_iff.mpr hc2
      · exact Nat.not_lt.mp hc1.2

/-- C2 (witness): the amended theorem applied to a concrete accepted
summary. -/
theorem c2_valid_summary_nonempty_no_url_witness :
    ("the quick brown fox jumps over lazy dogs".data ≠ ([] : List Char)) ∧
    hasURL ("the quick brown fox jumps over lazy dogs".data) = false ∧
    20 ≤ (pystrip ("the quick brown fox jumps over lazy dogs".data)).length :=
  c2_valid_summary_nonempty_no_url ("the quick brown fox jumps over lazy dogs".data)
    ("alpha beta gamma.".data) (by decide)

/-- C3 (counterexample): for the all-empty article the selection chain uses
the title_only tier, but the produced record's content_source field is
"original_summary" — the record's tag does not equal the tag of the tier
actually used (the code writes only "full_article" or "original_summary",
chosen solely by whether full text was fetched). -/
theorem c3_title_only_tag_mismatch_cex :
    (select [] [] (fetch_full_article_text none 500)).2 = Tier.title_only ∧
    (processArticle none genUnreachable noEnts emptyArticle ("client".data)).1.content_source
      = "original_summary".data ∧
    tierTag Tier.title_only ≠ "original_summary".data := by decide

/-- C3 (amended): content selection is total and deterministic, returning
exactly one of the three tiers, with full_article iff the fetched text is
present, non-empty and longer than 200 characters, original_summary iff
not that and the existing summary is non-empty and longer than 50
characters, and title_only otherwise; but the record's content_source
field is "full_article" iff the fetched full text is truthy and is
"original_summary" in every other case — it never takes the value
"title_only" and therefore does not always equal the tier used. -/
theorem c3_select_total_content_source (title ex : List Char) (full : Option (List Char)) :
    ((select title ex full).2 = Tier.full_article ∨
     (select title ex full).2 = Tier.original_summary ∨
     (select title ex full).2 = Tier.title_only) ∧
    ((select title ex full).2 = Tier.full_article ↔ fullLongB full = true) ∧
    ((select title ex full).2 = Tier.original_summary ↔
      (fullLongB full = false ∧ existingLongB ex = true)) ∧
    ((select title ex full).2 = Tier.title_only ↔
      (fullLongB full = false ∧ existingLongB ex = false)) ∧
    (content_source_field full = "full_article".data ∨
     content_source_field full = "original_summary".data) ∧
    (content_source_field full = "full_article".data ↔ pyTruthyOpt full = true) := by
  unfold select content_source_field
  cases hf : fullLongB full <;> cases hex : existingLongB ex <;>
    cases hp : pyTruthyOpt full <;> simp [hf, hex, hp]

/-- C4 (counterexample): the output record built by process_articles has no
used_fallback field at all — its dict literal has exactly the nine keys
title, link, published, source, original_summary, ai_summary,
company_type, content_source, detected_entities — so the scenario's
conclusion "used_fallback = true" cannot hold of the produced record. -/
theorem c4_no_used_fallback_field_cex :
    ¬ ("used_fallback".data ∈ structuredKeys) := by decide

/-- C4 (amended): for the Acme article (no full text, summary longer than
50 characters) with an unreachable generative summarizer, the pipeline
yields content_source = "original_summary" and an ai_summary produced by
the extractive fallback that contains the first sentence of the combined
title-plus-summary text; the fallback use is recorded only in the
failed_summaries counter (the Boolean returned alongside the record),
there being no used_fallback record field. -/
theorem c4_acme_scenario :
    (processArticle none genUnreachable noEnts acmeArticle ("competitor".data)).1.content_source
      = "original_summary".data ∧
    substrB ("Acme Corp wins major contract".data)
      (processArticle none genUnreachable noEnts acmeArticle ("competitor".data)).1.ai_summary
      = true ∧
    (processArticle none genUnreachable noEnts acmeArticle ("competitor".data)).2 = true := by
  decide

/-- C5: the claim is right and the code has a slip.  When the
classification call raises, process_articles assigns the literal
"Uncategorized" (American spelling, line 67), while the unmatched sentinel
returned by normalize_category for an off-taxonomy label is
"Uncategorised" (British spelling, line 44) — the same sentinel the WARN
diagnostic at line 51 tests for.  The two outcomes are therefore
distinguishable in the output, contradicting the documented intent that a
raised error be equivalent to an unmatched label. -/
theorem c5_error_sentinel_mismatch :
    assignedCategory none = "Uncategorized".data ∧
    normalize_category ("synergistic blue-sky thinking".data) = "Uncategorised".data ∧
    assignedCategory none ≠ normalize_category ("synergistic blue-sky thinking".data) := by
  decide

/-- C6 (counterexample): correction is NOT idempotent.  For the summary
"Slaughter and May escape and a escape", the first pass appends "law firm"
and then the person-misreading rule's greedy first group swallows the
first "escape", matching only the final one; the second pass re-matches
the pattern ending at the "escape" that survived inside group 1 and
rewrites again, so correct(correct(s)) differs from correct(s). -/
theorem c6_not_idempotent_cex :
    post_process_summary (post_process_summary ("Slaughter and May escape and a escape".data))
      ≠ post_process_summary ("Slaughter and May escape and a escape".data) := by decide

/-- C6 (amended): correction is not idempotent in general — the
person-misreading rewrite can leave a trigger word inside its first
capture group, which a second pass rewrites again (see the
counterexample); applying correct twice does agree with applying it once
on summaries that engage only the entity-suffix rules, as at this
instance, where the appended noun is protected by the rule's own negative
lookahead. -/
theorem c6_idempotent_on_suffix_rules_instance :
    post_process_summary (post_process_summary ("Goldman Sachs met analysts".data))
      = post_process_summary ("Goldman Sachs met analysts".data) := by decide

/-- C7 (counterexample): a correction rule's substitution is NOT applied at
most once per summary.  "Goldman Sachs met Goldman Sachs" has two
unguarded occurrences of the entity and both are rewritten: the output
contains "investment bank" twice, where the claim ("only one of them
rewritten") would allow at most one insertion. -/
theorem c7_not_once_per_pattern_cex :
    countSub ("investment bank".data)
        (post_process_summary ("Goldman Sachs met Goldman Sachs".data)) = 2 ∧
    countSub ("investment bank".data) ("Goldman Sachs met Goldman Sachs".data) = 0 := by
  decide

/-- C7 (amended): in post_process_summary each rule is applied by a full
re.sub pass with no count limit, rewriting every non-overlapping unguarded
occurrence left to right: the two-occurrence summary has both occurrences
rewritten (the once-per-pattern behavior belongs to the pre-summarization
context injection, which passes count=1). -/
theorem c7_sub_replaces_all_matches :
    post_process_summary ("Goldman Sachs met Goldman Sachs".data) =
      "Goldman Sachs investment bank met Goldman Sachs investment bank".data := by decide

/-- C9: the 0.8 overlap threshold over the first 100 source words is
exact.  For a 100-word source text of pairwise distinct words, the summary
consisting of exactly its first 90 words (overlap 90/90 = 1 >= 0.8) is
rejected, while a 90-word summary sharing only 5 of its words with the
first 100 source words (overlap 5/90 < 0.8), being at least 20 characters
and URL-free, is accepted. -/
theorem c9_overlap_boundary :
    is_valid_summary summaryFirst90 sourceText100 = false ∧
    is_valid_summary summaryShare5 sourceText100 = true := by decide

/-- C10: every raw label that is empty or all-whitespace strips and lowers
to the empty string, misses every exact match, and then satisfies the
substring-containment test against the first canonical category ("" is a
Python substring of everything), so normalize_category returns "Strategy
and Management" — not the unmatched sentinel. -/
theorem c10_whitespace_label_first_category (s : List Char)
    (h : ∀ c ∈ s, isSpacePy c = true) :
    normalize_category s = "Strategy and Management".data := by
  have h1 : pystrip s = [] := pystrip_eq_nil_of_all_space s h
  unfold normalize_category
  rw [h1]
  decide

/-- C10 (witness): the theorem applied to a three-space label. -/
theorem c10_whitespace_label_first_category_witness :
    normalize_category ("   ".data) = "Strategy and Management".data :=
  c10_whitespace_label_first_category ("   ".data) (by decide)

/-- C8 (counterexample): injection does not merely append a qualifier after
the first occurrence — it REPLACES the matched text with the
canonically-cased entity name plus the qualifier.  For a text containing
"goldman sachs" (lower case) three times, the output recases the first
occurrence to "Goldman Sachs", so it differs from the string obtained by
appending the qualifier to the unchanged text as the claim describes. -/
theorem c8_recases_first_occurrence_cex :
    preprocess_text_with_context ("goldman sachs goldman sachs goldman sachs".data) =
      "Goldman Sachs (the investment bank) goldman sachs goldman sachs".data ∧
    preprocess_text_with_context ("goldman sachs goldman sachs goldman sachs".data) ≠
      "goldman sachs (the investment bank) goldman sachs goldman sachs".data := by decide

/-- C8 (amended): for every text in which some knowledge-base entity
occurs (three times, per the claim's setting) and no other entity occurs,
injection performs exactly one substitution: the first whole-word
case-insensitive occurrence — decomposed as `text = pre ++ occ ++ post`
with `occ` case-insensitively equal to the entity, word boundaries on both
sides, and no match starting inside `pre` — is replaced by the
canonically-cased entity name followed by the single qualifier
" (the <entity_type>)" (a pure append exactly when the occurrence is
already canonically cased); the other occurrences (inside `post`) are left
unchanged, and a text without known entities passes through unchanged. -/
theorem c8_injection_single_substitution :
    (∀ (kb1 kb2 : List (List Char × List Char)) (e τ pre occ post text : List Char),
      entity_corrections = kb1 ++ (e, τ) :: kb2 →
      text = pre ++ occ ++ post →
      pylower occ = pylower e →
      countOccCI e none text = 3 →
      (∀ p ∈ kb1, hasOccCI p.1 none text = false) →
      (∀ p ∈ kb2, hasOccCI p.1 none text = false) →
      scanNoMatch e none pre (occ ++ post) = true →
      boundaryBefore (lastOpt none pre) = true →
      boundaryAfterL post = true →
      preprocess_text_with_context text =
        pre ++ e ++ " (the ".data ++ τ ++ ")".data ++ post) ∧
    (∀ text : List Char,
      (∀ p ∈ entity_corrections, hasOccCI p.1 none text = false) →
      preprocess_text_with_context text = text) := by
  constructor
  · intro kb1 kb2 e τ pre occ post text hsplit htext hocc _hcount h1 h2 hscan hb ha
    have hmem : (e, τ) ∈ entity_corrections := by
      rw [hsplit]
      exact List.mem_append_right _ (List.mem_cons_self _ _)
    have hene : e ≠ [] := by
      have hall : ∀ p ∈ entity_corrections, p.1 ≠ ([] : List Char) := by decide
      exact hall (e, τ) hmem
    have hlen : occ.length = e.length := by
      have hl := congrArg List.length hocc
      simpa [pylower] using hl
    have hoccne : occ ≠ [] := by
      intro hx
      apply hene
      apply List.length_eq_zero.mp
      rw [← hlen, hx]
      rfl
    have htext' : text = pre ++ (occ ++ post) := by
      rw [htext, List.append_assoc]
    have hmatch : matchesHere e (lastOpt none pre) (occ ++ post) = true := by
      have hcst : ciStarts e (occ ++ post) = true := by
        unfold ciStarts
        rw [← hlen, List.take_left, hocc]
        exact decide_eq_true rfl
      have haft : boundaryAfterL ((occ ++ post).drop e.length) = true := by
        rw [← hlen, List.drop_left]
        exact ha
      unfold matchesHere
      rw [hb, hcst, haft]
      rfl
    have hoccT : hasOccCI e none text = true := by
      cases occ with
      | nil => exact absurd rfl hoccne
      | cons c o =>
          have hm : matchesHere e (lastOpt none pre) (c :: (o ++ post)) = true := by
            simpa [List.cons_append] using hmatch
          rw [htext']
          simpa [List.cons_append] using hasOccCI_of_match e pre none c (o ++ post) hm
    have hempty : text.isEmpty = false := by
      rw [htext']
      cases hp2 : pre ++ (occ ++ post) with
      | nil =>
          exfalso
          apply hoccne
          rcases List.append_eq_nil.mp hp2 with ⟨_, hrest⟩
          exact (List.append_eq_nil.mp hrest).1
      | cons _ _ => rfl
    unfold preprocess_text_with_context
    rw [hempty]
    simp only [Bool.false_eq_true, if_false]
    rw [hsplit, List.foldl_append, List.foldl_cons]
    rw [foldl_injectStep_id text kb1 text h1]
    rw [foldl_injectStep_id text kb2 _ h2]
    simp only [injectStep, hoccT, if_true]
    rw [htext']
    rw [subFirstCI_skip e (e ++ " (the ".data ++ τ ++ ")".data) pre none (occ ++ post) hscan]
    rw [subFirstCI_fire e (e ++ " (the ".data ++ τ ++ ")".data) occ post
      (lastOpt none pre) hoccne hlen hmatch]
    simp [List.append_assoc]
  · intro text h
    unfold preprocess_text_with_context
    cases hempty : text.isEmpty with
    | true => rfl
    | false =>
        simp only [Bool.false_eq_true, if_false]
        exact foldl_injectStep_id text entity_corrections text h

/-- C8 (witness): the amended theorem applied to a text containing
"Goldman Sachs" three times and no other entity, split around its first
occurrence (kb1 and kb2 are the knowledge-base entries before and after
"Goldman Sachs"); plus the pass-through half on an entity-free text. -/
theorem c8_injection_single_substitution_witness :
    preprocess_text_with_context
        ("We met Goldman Sachs, Goldman Sachs and Goldman Sachs".data) =
      "We met Goldman Sachs (the investment bank), Goldman Sachs and Goldman Sachs".data ∧
    preprocess_text_with_context ("No known entities occur in this text.".data) =
      "No known entities occur in this text.".data :=
  ⟨(c8_injection_single_substitution.1 (List.take 21 entity_corrections)
      (List.drop 22 entity_corrections) ("Goldman Sachs".data) ("investment bank".data)
      ("We met ".data) ("Goldman Sachs".data) (", Goldman Sachs and Goldman Sachs".data)
      ("We met Goldman Sachs, Goldman Sachs and Goldman Sachs".data)
      (by decide) (by decide) (by decide) (by decide) (by decide) (by decide)
      (by decide) (by decide) (by decide)).trans (by decide),
   c8_injection_single_substitution.2 ("No known entities occur in this text.".data)
     (by decide)⟩
